import Mathlib

/- Verification development for the avanza-api client.  The definitions below
   are shallow embeddings of the session-authentication pipeline and of the
   realtime channel multiplexer found in the two service source files, with
   the reactive wiring rendered as explicit state plus an event step
   function. -/

/-- Credentials record of the service sources: username, password and the
shared TOTP secret. -/
structure Credentials where
  username : String
  password : String
  totpSecret : String
deriving DecidableEq

/-- Session bundle produced by a successful two-step login: security token,
authentication session and push subscription id. -/
structure SessionAuth where
  securityToken : String
  authenticationSession : String
  pushSubscriptionId : String
deriving DecidableEq

/-- Lower bound of the session inactivity timeout, in minutes. -/
def MIN_INACTIVE_MINUTES : Int := 30

/-- Upper bound of the session inactivity timeout, in minutes. -/
def MAX_INACTIVE_MINUTES : Int := 60 * 24

/-- The three validation failures thrown by checkCredentials: missing
username, missing password, and a timeout outside the allowed range. -/
inductive CredError where
  | missingUsername
  | missingPassword
  | timeoutOutOfRange
deriving DecidableEq

/-- Embedding of checkCredentials: an empty username fails first, then an
empty password, then a timeout outside the closed interval from
MIN_INACTIVE_MINUTES to MAX_INACTIVE_MINUTES; otherwise validation passes.
The thrown message strings of the source are represented by CredError
tags. -/
def checkCredentials (credentials : Credentials) (authenticationTimeout : Int) :
    Except CredError Unit :=
  if credentials.username = "" then Except.error CredError.missingUsername
  else if credentials.password = "" then Except.error CredError.missingPassword
  else if ¬(MIN_INACTIVE_MINUTES ≤ authenticationTimeout ∧
      authenticationTimeout ≤ MAX_INACTIVE_MINUTES) then
    Except.error CredError.timeoutOutOfRange
  else Except.ok ()

/-- Classifier for the two credential-shaped validation failures. -/
def isCredentialsFailure : Except CredError Unit → Bool
  | Except.error CredError.missingUsername => true
  | Except.error CredError.missingPassword => true
  | _ => false

/-- Configuration record of genericRetryStrategy. -/
structure RetryConfig where
  maxRetryAttempts : Nat
  scalingDuration : Nat
  excludedStatusCodes : List Int
deriving DecidableEq

/-- Decision taken by the retry strategy on one failure: propagate the error
or retry after the given delay in milliseconds. -/
inductive RetryDecision where
  | propagate
  | retryAfter (ms : Nat)
deriving DecidableEq

/-- The statusCode membership test of genericRetryStrategy; a failure value
without a statusCode field is never excluded. -/
def isExcludedErrorCode (cfg : RetryConfig) (statusCode : Option Int) : Bool :=
  match statusCode with
  | some c => cfg.excludedStatusCodes.contains c
  | none => false

/-- Embedding of genericRetryStrategy: on the failure with zero-based index i
the attempt number is i + 1; if it exceeds maxRetryAttempts or the status
code is excluded, the error is rethrown; otherwise the strategy waits
attempt number times scalingDuration milliseconds before the next try. -/
def genericRetryStrategy (cfg : RetryConfig) (statusCode : Option Int)
    (i : Nat) : RetryDecision :=
  if cfg.maxRetryAttempts < i + 1 ∨ isExcludedErrorCode cfg statusCode = true then
    RetryDecision.propagate
  else
    RetryDecision.retryAfter ((i + 1) * cfg.scalingDuration)

/-- Default configuration in the monolithic service file: three attempts,
base delay 1000 ms, status 401 excluded. -/
def defaultRetryConfigMonolith : RetryConfig := ⟨3, 1000, [401]⟩

/-- Default configuration in the split service file: statuses 401 and 400
are both excluded. -/
def defaultRetryConfigService : RetryConfig := ⟨3, 1000, [401, 400]⟩

/-- Configuration used at the retryWhen call of authenticate in the
monolithic file: ten attempts, base delay 10000 ms, and the default
exclusion list of that file. -/
def authRetryConfigMonolith : RetryConfig := ⟨10, 10000, [401]⟩

/-- Configuration used at the retryWhen call of authenticate in the split
service file. -/
def authRetryConfigService : RetryConfig := ⟨10, 10000, [401, 400]⟩

/-- Runs the retry strategy over a list of failure status codes, starting at
zero-based failure index i; returns the sequence of waits and whether the
error was finally propagated (false means the operation was granted another
attempt after every listed failure). -/
def retryRun (cfg : RetryConfig) : List (Option Int) → Nat → List Nat × Bool
  | [], _ => ([], false)
  | e :: rest, i =>
    match genericRetryStrategy cfg e i with
    | RetryDecision.propagate => ([], true)
    | RetryDecision.retryAfter d =>
      (d :: (retryRun cfg rest (i + 1)).1, (retryRun cfg rest (i + 1)).2)

/-- Last-occurrence-wins lookup in a JSON object represented as a key-value
list in write order; later entries shadow earlier ones, matching the
object-spread construction used by the request helper. -/
def objGet : List (String × Int) → String → Option Int
  | [], _ => none
  | p :: rest, key =>
    match objGet rest key with
    | some w => some w
    | none => if p.1 = key then some p.2 else none

/-- Embedding of the json value built by the request helper: an object that
starts with a statusCode entry holding the transport status and then spreads
the parsed response body, whose own entries therefore shadow it. -/
def requestJson (httpStatus : Int) (body : List (String × Int)) :
    List (String × Int) :=
  ("statusCode", httpStatus) :: body

/-- The success check of both login steps inside authenticate: the step is
rejected exactly when the statusCode field of the merged json differs
from 200. -/
def authResponseRejected (json : List (String × Int)) : Bool :=
  if objGet json "statusCode" = some 200 then false else true

/-- State of the authenticate pipeline in the monolithic service file: the
latest credentials, whether an inner login chain is active, how many
credential-login requests have been started, how many inner chains were
cancelled by a later trigger (switch semantics), the credentials used by the
most recent attempt, and the last produced session. -/
structure AuthNet where
  credentials : Option Credentials
  inFlight : Bool
  loginAttemptsStarted : Nat
  canceledAttempts : Nat
  lastAttemptCredentials : Option Credentials
  authSession : Option SessionAuth
deriving DecidableEq

/-- Events of the authenticate pipeline: a trigger emission (startup call or
renewal timer) and the completion of the in-flight login chain. -/
inductive AuthEvent where
  | trigger
  | complete (sess : SessionAuth)
deriving DecidableEq

/-- One step of the authenticate pipeline: a trigger with credentials set
starts a new credential-login request through the switching combinator,
cancelling any chain already in flight rather than joining it; without
credentials the filter drops the emission; completion clears the in-flight
mark and stores the session. -/
def authStep (s : AuthNet) : AuthEvent → AuthNet
  | AuthEvent.trigger =>
    match s.credentials with
    | none => s
    | some c =>
      ⟨some c, true, s.loginAttemptsStarted + 1,
        s.canceledAttempts + (if s.inFlight then 1 else 0), some c,
        s.authSession⟩
  | AuthEvent.complete sess =>
    ⟨s.credentials, false, s.loginAttemptsStarted, s.canceledAttempts,
      s.lastAttemptCredentials, some sess⟩

/-- Delay in milliseconds of the self-renewal pipeline: the configured
timeout minus one, converted from minutes. -/
def renewalDelayMs (authenticationTimeout : Nat) : Nat :=
  (authenticationTimeout - 1) * 60 * 1000

/-- Firing times of the renewal pipeline for a list of timed emissions of
the session subject: null emissions are filtered out and every session
emission at time t yields exactly one delayed trigger at t plus the renewal
delay. -/
def renewalFirings (authenticationTimeout : Nat)
    (emissions : List (Nat × Option SessionAuth)) : List Nat :=
  (emissions.filter (fun e => e.2.isSome)).map
    (fun e => e.1 + renewalDelayMs authenticationTimeout)

/-- The realtime channel names of the models file. -/
inductive Channels where
  | accounts
  | quotes
  | orderdepths
  | trades
  | brokertradesummary
  | positions
  | orders
  | deals
deriving DecidableEq

/-- String value of each channel, as in the TS enum. -/
def channelValue : Channels → String
  | Channels.accounts => "accounts"
  | Channels.quotes => "quotes"
  | Channels.orderdepths => "orderdepths"
  | Channels.trades => "trades"
  | Channels.brokertradesummary => "brokertradesummary"
  | Channels.positions => "positions"
  | Channels.orders => "orders"
  | Channels.deals => "deals"

/-- Channels that use the account-scoped subscription encoding. -/
def accountScopedChannels : List Channels :=
  [Channels.orders, Channels.deals, Channels.positions]

/-- A subscription request: a channel and an ordered list of ids. -/
structure SubscriptionRequest where
  channel : Channels
  ids : List String
deriving DecidableEq

/-- Outbound protocol frame, restricted to the fields the verified claims
are about: channel name, per-message id, the clientId field where the source
includes one, the subscription path of subscribe frames, and the
subscriptionId carried in the ext field of handshake frames.  Constant
fields of the source frames (advice, version, connectionType, supported
connection types) are omitted. -/
structure Frame where
  channel : String
  id : Nat
  clientId : Option String
  subscription : Option String
  extSubscriptionId : Option String
deriving DecidableEq

/-- The handshake frame sent by the auth trigger handler. -/
def handshakeFrame (pushSubscriptionId : String) (id : Nat) : Frame :=
  ⟨"/meta/handshake", id, none, none, some pushSubscriptionId⟩

/-- The connect frame sent after a successful handshake and as the
keep-alive answer to a connect response. -/
def connectFrame (clientId : Option String) (id : Nat) : Frame :=
  ⟨"/meta/connect", id, clientId, none, none⟩

/-- A subscribe frame with the given subscription path. -/
def subscribeFrame (clientId : Option String) (id : Nat) (path : String) :
    Frame :=
  ⟨"/meta/subscribe", id, clientId, some path, none⟩

/-- Subscribe frames produced for one subscription request: account-scoped
channels produce a single frame whose path is a slash, the channel value and
the comma-joined ids; every other channel produces one frame per id with
path slash channel slash id.  All frames carry the same sampled id. -/
def encodeSubscriptionFrames (sub : SubscriptionRequest)
    (clientId : Option String) (count : Nat) : List Frame :=
  if accountScopedChannels.contains sub.channel then
    [subscribeFrame clientId count
      ("/" ++ channelValue sub.channel ++ String.intercalate "," sub.ids)]
  else
    sub.ids.map (fun i =>
      subscribeFrame clientId count ("/" ++ channelValue sub.channel ++ "/" ++ i))

/-- Inbound protocol messages, discriminated by their channel field: a
handshake response (with success flag and assigned clientId), a connect
response, or any other message, which is forwarded as data. -/
inductive InboundMessage where
  | handshakeMsg (successful : Bool) (clientId : String)
  | connectMsg
  | dataMsg (payload : String)
deriving DecidableEq

/-- External events driving the multiplexer: transport open and close
events, an inbound batch of messages, an emission of the session subject,
and a call to addSubscription. -/
inductive MuxEvent where
  | openEvent
  | closeEvent
  | messageEvent (msgs : List InboundMessage)
  | authSessionNext (sess : SessionAuth)
  | addSubscriptionNext (sub : SubscriptionRequest)
deriving DecidableEq

/-- State of the multiplexer: the message sequence counter, the stored
clientId, the authenticated flag, the last value let through by the
deduplicating stage in front of the subscription pipeline, the latest
subscription request, the ledger accumulated by the scan over the
subscription subject (which starts with that subject holding a null value),
the latest open flag (none until the first open or close event), the latest
session, the outbound frames in send order, and the forwarded data
payloads. -/
structure MuxState where
  socketMessageCount : Nat
  socketClientId : Option String
  isSocketAuth : Bool
  lastAuthEmitted : Option Bool
  addSubscription : Option SubscriptionRequest
  subscriptions : List (Option SubscriptionRequest)
  isSocketOpen : Option Bool
  authSession : Option SessionAuth
  sent : List Frame
  forwarded : List String
deriving DecidableEq

/-- Initial multiplexer state: counter 1, no clientId, not authenticated,
the deduplicating stage has emitted the initial false, the subscription
subject holds null, the ledger holds that initial null, no open or close
event seen, no session, nothing sent, nothing forwarded. -/
def initMuxState : MuxState :=
  ⟨1, none, false, some false, none, [none], none, none, [], []⟩

/-- Sending one frame: the send subject notifies the counter subscriber,
which increments the sequence counter, and the socket subscriber, which
writes the frame; the id inside the frame was baked in by the caller before
the send. -/
def sendFrame (f : Frame) (s : MuxState) : MuxState :=
  { s with socketMessageCount := s.socketMessageCount + 1,
           sent := s.sent ++ [f] }

/-- Sending a list of frames in order. -/
def sendFrames : List Frame → MuxState → MuxState
  | [], s => s
  | f :: fs, s => sendFrames fs (sendFrame f s)

/-- Effect of pushing true into the authenticated-flag subject: the flag is
set and, when the deduplicating stage lets the change through, the
combination with the latest subscription request fires; its filter requires
a non-null request, and the produced frames sample the live counter and
clientId at that moment. -/
def authChangeTrue (s : MuxState) : MuxState :=
  if s.lastAuthEmitted = some true then { s with isSocketAuth := true }
  else
    match s.addSubscription with
    | some sub =>
      sendFrames (encodeSubscriptionFrames sub s.socketClientId s.socketMessageCount)
        { s with isSocketAuth := true, lastAuthEmitted := some true }
    | none => { s with isSocketAuth := true, lastAuthEmitted := some true }

/-- Handler of the auth trigger subject: samples the counter and the session
and sends the handshake frame when a session is available. -/
def socketAuthTrigger (s : MuxState) : MuxState :=
  match s.authSession with
  | some a => sendFrame (handshakeFrame a.pushSubscriptionId s.socketMessageCount) s
  | none => s

/-- Handling of one inbound frame; count0 and clientId0 are the counter and
clientId sampled once when the enclosing batch arrived, matching the
sampling combinator in front of the message handler.  A successful handshake
stores the fresh clientId and answers with a connect frame carrying it; a
failed handshake only logs; a connect response pushes true into the
authenticated-flag subject and then answers with a keep-alive connect frame
built from the batch-sampled values; anything else is forwarded. -/
def processMessage (count0 : Nat) (clientId0 : Option String) (s : MuxState) :
    InboundMessage → MuxState
  | InboundMessage.handshakeMsg true cid =>
    sendFrame (connectFrame (some cid) count0) { s with socketClientId := some cid }
  | InboundMessage.handshakeMsg false _ => s
  | InboundMessage.connectMsg =>
    sendFrame (connectFrame clientId0 count0) (authChangeTrue s)
  | InboundMessage.dataMsg payload =>
    { s with forwarded := s.forwarded ++ [payload] }

/-- One multiplexer step.  An open event records the open flag and, when a
session has been emitted, fires the auth trigger; a close event only records
the open flag as false; a session emission is stored and fires the auth
trigger when the socket is open; an inbound batch is processed message by
message with the counter and clientId sampled once at arrival; an added
subscription updates the latest-request subject and the ledger and, when the
deduplicating stage last emitted true, immediately produces the subscribe
frames for that one request. -/
def step (s : MuxState) : MuxEvent → MuxState
  | MuxEvent.openEvent =>
    match s.authSession with
    | some _ => socketAuthTrigger { s with isSocketOpen := some true }
    | none => { s with isSocketOpen := some true }
  | MuxEvent.closeEvent => { s with isSocketOpen := some false }
  | MuxEvent.authSessionNext a =>
    if s.isSocketOpen = some true then
      socketAuthTrigger { s with authSession := some a }
    else { s with authSession := some a }
  | MuxEvent.messageEvent msgs =>
    msgs.foldl (processMessage s.socketMessageCount s.socketClientId) s
  | MuxEvent.addSubscriptionNext sub =>
    if s.lastAuthEmitted = some true then
      sendFrames (encodeSubscriptionFrames sub s.socketClientId s.socketMessageCount)
        { s with addSubscription := some sub,
                 subscriptions := s.subscriptions ++ [some sub] }
    else
      { s with addSubscription := some sub,
               subscriptions := s.subscriptions ++ [some sub] }

/-- Running the multiplexer from its initial state over a list of events. -/
def runMux (events : List MuxEvent) : MuxState :=
  events.foldl step initMuxState

/-- Recognizer for subscribe frames. -/
def isSubscribeFrame (f : Frame) : Bool :=
  f.channel == "/meta/subscribe"

/-- A list of ids is strictly increasing by one when every element is the
predecessor plus one. -/
def strictlyIncreasingByOne : List Nat → Bool
  | [] => true
  | [_] => true
  | a :: b :: rest => (b == a + 1) && strictlyIncreasingByOne (b :: rest)

/-- Counter invariant: the sequence counter always equals one plus the
number of frames sent. -/
def countInv (s : MuxState) : Prop :=
  s.socketMessageCount = 1 + s.sent.length

/-- A sample session used in concrete traces. -/
def sessP : SessionAuth := ⟨"tok", "sess", "P"⟩

/-- Scenario prefix: socket opens, a session arrives (handshake frame goes
out), the handshake succeeds (connect frame goes out), and a subscription to
quotes ids 5 and 6 is added while the connection is not yet authenticated. -/
def trace5a : List MuxEvent :=
  [MuxEvent.openEvent, MuxEvent.authSessionNext sessP,
   MuxEvent.messageEvent [InboundMessage.handshakeMsg true "C1"],
   MuxEvent.addSubscriptionNext ⟨Channels.quotes, ["5", "6"]⟩]

/-- The same scenario continued by the arrival of a connect-success frame. -/
def trace5b : List MuxEvent :=
  trace5a ++ [MuxEvent.messageEvent [InboundMessage.connectMsg]]

/-- Scenario with two subscriptions added before the connect success. -/
def traceTwoSubs : List MuxEvent :=
  [MuxEvent.openEvent, MuxEvent.authSessionNext sessP,
   MuxEvent.messageEvent [InboundMessage.handshakeMsg true "C1"],
   MuxEvent.addSubscriptionNext ⟨Channels.quotes, ["1"]⟩,
   MuxEvent.addSubscriptionNext ⟨Channels.trades, ["2"]⟩,
   MuxEvent.messageEvent [InboundMessage.connectMsg]]

/-- Scenario ending in a close event after full authentication. -/
def traceClose : List MuxEvent :=
  [MuxEvent.openEvent, MuxEvent.authSessionNext sessP,
   MuxEvent.messageEvent [InboundMessage.handshakeMsg true "C1"],
   MuxEvent.messageEvent [InboundMessage.connectMsg],
   MuxEvent.closeEvent]

/-- Scenario where an orders subscription with ids 5 and 6 is added after
authentication. -/
def traceOrders : List MuxEvent :=
  [MuxEvent.openEvent, MuxEvent.authSessionNext sessP,
   MuxEvent.messageEvent [InboundMessage.handshakeMsg true "C1"],
   MuxEvent.messageEvent [InboundMessage.connectMsg],
   MuxEvent.addSubscriptionNext ⟨Channels.orders, ["5", "6"]⟩]

/-- A sample unauthenticated multiplexer state with a pending quotes
subscription, used to instantiate the general theorems. -/
def sampleMuxState : MuxState :=
  ⟨5, some "C1", false, some false, some ⟨Channels.quotes, ["7"]⟩, [none],
   some true, some sessP, [], []⟩

/-- A sample authenticated multiplexer state, used to instantiate the
general theorems. -/
def sampleAuthedMuxState : MuxState :=
  ⟨7, some "C1", true, some true, some ⟨Channels.quotes, ["7"]⟩, [none],
   some true, some sessP, [], []⟩

/-- A sample authenticate-pipeline state with credentials set and a login
chain in flight. -/
def inFlightAuthNet : AuthNet :=
  ⟨some ⟨"user", "pw", "secret"⟩, true, 1, 0, some ⟨"user", "pw", "secret"⟩,
   none⟩

/-- A sample authenticate-pipeline state with credentials set and nothing in
flight. -/
def idleAuthNet : AuthNet :=
  ⟨some ⟨"user", "pw", "secret"⟩, false, 0, 0, none, none⟩

theorem sendFrame_sent (f : Frame) (s : MuxState) :
    (sendFrame f s).sent = s.sent ++ [f] := rfl

theorem sendFrame_count (f : Frame) (s : MuxState) :
    (sendFrame f s).socketMessageCount = s.socketMessageCount + 1 := rfl

theorem sendFrames_sent :
    ∀ (fs : List Frame) (s : MuxState), (sendFrames fs s).sent = s.sent ++ fs
  | [], s => by simp [sendFrames]
  | f :: fs, s => by
    rw [sendFrames, sendFrames_sent fs, sendFrame_sent]
    simp

theorem countInv_sendFrame (f : Frame) (s : MuxState) (h : countInv s) :
    countInv (sendFrame f s) := by
  simp [countInv, sendFrame] at h ⊢
  omega

theorem countInv_sendFrames :
    ∀ (fs : List Frame) (s : MuxState), countInv s → countInv (sendFrames fs s)
  | [], _, h => h
  | f :: fs, s, h => countInv_sendFrames fs _ (countInv_sendFrame f s h)

theorem countInv_authChangeTrue (s : MuxState) (h : countInv s) :
    countInv (authChangeTrue s) := by
  unfold authChangeTrue
  by_cases hc : s.lastAuthEmitted = some true
  · simpa [hc, countInv] using h
  · cases hs : s.addSubscription with
    | none => simp [hc, hs]; simpa [countInv] using h
    | some sub =>
      simp only [hc, hs, if_neg]
      refine countInv_sendFrames _ _ ?_
      simpa [countInv] using h

theorem countInv_socketAuthTrigger (s : MuxState) (h : countInv s) :
    countInv (socketAuthTrigger s) := by
  unfold socketAuthTrigger
  cases ha : s.authSession with
  | none => exact h
  | some a => exact countInv_sendFrame _ _ h

theorem countInv_processMessage (c0 : Nat) (cid0 : Option String)
    (m : InboundMessage) (s : MuxState) (h : countInv s) :
    countInv (processMessage c0 cid0 s m) := by
  cases m with
  | handshakeMsg succ cid =>
    cases succ
    · exact h
    · exact countInv_sendFrame _ _ (by simpa [countInv] using h)
  | connectMsg => exact countInv_sendFrame _ _ (countInv_authChangeTrue s h)
  | dataMsg p => simpa [processMessage, countInv] using h

theorem countInv_foldProcess (c0 : Nat) (cid0 : Option String) :
    ∀ (msgs : List InboundMessage) (s : MuxState), countInv s →
      countInv (List.foldl (processMessage c0 cid0) s msgs)
  | [], _, h => h
  | m :: ms, s, h =>
    countInv_foldProcess c0 cid0 ms _ (countInv_processMessage c0 cid0 m s h)

theorem countInv_step (e : MuxEvent) (s : MuxState) (h : countInv s) :
    countInv (step s e) := by
  cases e with
  | openEvent =>
    unfold step
    cases ha : s.authSession with
    | none => simpa [countInv] using h
    | some a => exact countInv_socketAuthTrigger _ (by simpa [countInv] using h)
  | closeEvent => simpa [step, countInv] using h
  | authSessionNext a =>
    unfold step
    by_cases ho : s.isSocketOpen = some true
    · simp only [ho, if_pos]
      exact countInv_socketAuthTrigger _ (by simpa [countInv] using h)
    · simp only [ho, if_neg, not_false_iff]
      simpa [countInv] using h
  | messageEvent msgs => exact countInv_foldProcess _ _ msgs s h
  | addSubscriptionNext sub =>
    unfold step
    by_cases hc : s.lastAuthEmitted = some true
    · simp only [hc, if_pos]
      exact countInv_sendFrames _ _ (by simpa [countInv] using h)
    · simp only [hc, if_neg, not_false_iff]
      simpa [countInv] using h

theorem countInv_run :
    ∀ (events : List MuxEvent) (s : MuxState), countInv s →
      countInv (List.foldl step s events)
  | [], _, h => h
  | e :: es, s, h => countInv_run es _ (countInv_step e s h)

/-- C1 (amended): the outbound message sequence counter starts at 1 and is
incremented exactly once per outbound frame, so after any event sequence it
equals one plus the number of frames sent; however, the id values carried by
outbound frames are the counter values sampled when the triggering emission
occurred, so frames produced while handling a single inbound batch or a
single multi-id subscription share the same id instead of increasing
by 1. -/
theorem claim_C1_amended (events : List MuxEvent) :
    (runMux events).socketMessageCount = 1 + (runMux events).sent.length := by
  have h := countInv_run events initMuxState (by simp [countInv, initMuxState])
  simpa [countInv, runMux] using h

/-- C1 counterexample: in a session that performs handshake, connect and a
two-id quotes subscription, the outbound frame ids are 1, 2, 3, 3, 3 — the
two subscribe frames and the keep-alive connect frame share the sampled
id 3 — so the ids are not strictly increasing by 1. -/
theorem claim_C1_counterexample :
    (runMux trace5b).sent.map Frame.id = [1, 2, 3, 3, 3] ∧
    strictlyIncreasingByOne ((runMux trace5b).sent.map Frame.id) = false := by
  refine ⟨by decide, by decide⟩

/-- C2 (amended): on each deduplicated transition into the authenticated
state, only the most recently added subscription request (the current value
of the subscription subject), when one exists, is (re)sent as subscribe
frames, followed by the keep-alive connect frame; repeated connect successes
while already authenticated send only the keep-alive frame and do not
re-trigger any subscribe frames. -/
theorem claim_C2_amended :
    (∀ (s : MuxState) (sub : SubscriptionRequest),
      s.lastAuthEmitted = some false → s.addSubscription = some sub →
      (step s (MuxEvent.messageEvent [InboundMessage.connectMsg])).sent =
        s.sent ++
          encodeSubscriptionFrames sub s.socketClientId s.socketMessageCount ++
          [connectFrame s.socketClientId s.socketMessageCount]) ∧
    (∀ s : MuxState, s.lastAuthEmitted = some true →
      (step s (MuxEvent.messageEvent [InboundMessage.connectMsg])).sent =
        s.sent ++ [connectFrame s.socketClientId s.socketMessageCount]) := by
  constructor
  · intro s sub h1 h2
    simp [step, List.foldl, processMessage, authChangeTrue, h1, h2,
      sendFrames_sent, sendFrame_sent]
  · intro s h1
    simp [step, List.foldl, processMessage, authChangeTrue, h1, sendFrame_sent]

/-- C2 counterexample: with a quotes subscription and then a trades
subscription both in the ledger before the connect success, the transition
into the authenticated state sends only the trades subscribe frame; the
quotes entry, although stored in the ledger, is never sent. -/
theorem claim_C2_counterexample :
    some (⟨Channels.quotes, ["1"]⟩ : SubscriptionRequest) ∈
      (runMux traceTwoSubs).subscriptions ∧
    (runMux traceTwoSubs).isSocketAuth = true ∧
    ((runMux traceTwoSubs).sent.filter isSubscribeFrame).map Frame.subscription =
      [some "/trades/2"] ∧
    ∀ f ∈ (runMux traceTwoSubs).sent, f.subscription ≠ some "/quotes/1" := by
  refine ⟨by decide, by decide, by decide, by decide⟩

/-- C2 witness: instantiation of the amended replay property at a concrete
unauthenticated state holding one pending quotes subscription. -/
theorem claim_C2_witness :
    (step sampleMuxState (MuxEvent.messageEvent [InboundMessage.connectMsg])).sent =
      sampleMuxState.sent ++
        encodeSubscriptionFrames ⟨Channels.quotes, ["7"]⟩
          sampleMuxState.socketClientId sampleMuxState.socketMessageCount ++
        [connectFrame sampleMuxState.socketClientId
          sampleMuxState.socketMessageCount] :=
  claim_C2_amended.1 sampleMuxState ⟨Channels.quotes, ["7"]⟩ rfl rfl

/-- C3 (amended): a close event only records the open flag as false; the
stored clientId, the authenticated flag and the sequence counter are all
retained, not discarded; a subsequent open event while a session is
available does send a fresh handshake frame. -/
theorem claim_C3_amended (s : MuxState) (a : SessionAuth)
    (h : s.authSession = some a) :
    (step s MuxEvent.closeEvent).socketClientId = s.socketClientId ∧
    (step s MuxEvent.closeEvent).isSocketAuth = s.isSocketAuth ∧
    (step s MuxEvent.closeEvent).socketMessageCount = s.socketMessageCount ∧
    (step s MuxEvent.closeEvent).isSocketOpen = some false ∧
    (step (step s MuxEvent.closeEvent) MuxEvent.openEvent).sent =
      s.sent ++ [handshakeFrame a.pushSubscriptionId s.socketMessageCount] := by
  refine ⟨rfl, rfl, rfl, rfl, ?_⟩
  simp [step, socketAuthTrigger, h, sendFrame_sent]

/-- C3 counterexample: after a full handshake and connect followed by a
close event, the multiplexer still holds clientId C1 and the authenticated
flag still reads true, so the close event discards neither the clientId nor
the handshake progress. -/
theorem claim_C3_counterexample :
    (runMux traceClose).socketClientId = some "C1" ∧
    (runMux traceClose).isSocketAuth = true ∧
    (runMux traceClose).isSocketOpen = some false := by
  refine ⟨by decide, by decide, by decide⟩

/-- C3 witness: instantiation of the amended close behaviour at a concrete
authenticated state. -/
theorem claim_C3_witness :
    (step sampleAuthedMuxState MuxEvent.closeEvent).socketClientId =
      sampleAuthedMuxState.socketClientId ∧
    (step sampleAuthedMuxState MuxEvent.closeEvent).isSocketAuth =
      sampleAuthedMuxState.isSocketAuth ∧
    (step sampleAuthedMuxState MuxEvent.closeEvent).socketMessageCount =
      sampleAuthedMuxState.socketMessageCount ∧
    (step sampleAuthedMuxState MuxEvent.closeEvent).isSocketOpen = some false ∧
    (step (step sampleAuthedMuxState MuxEvent.closeEvent)
        MuxEvent.openEvent).sent =
      sampleAuthedMuxState.sent ++
        [handshakeFrame sessP.pushSubscriptionId
          sampleAuthedMuxState.socketMessageCount] :=
  claim_C3_amended sampleAuthedMuxState sessP rfl

/-- C4 (amended): an addSubscription call on an account-scoped channel made
while the connection is authenticated sends exactly one subscribe frame, and
its subscription path is a slash, the channel name, and the ids joined by
commas — for channel orders and ids 5 and 6 the path is /orders5,6, not
/orders56. -/
theorem claim_C4_amended (s : MuxState) (ch : Channels) (ids : List String)
    (h1 : s.lastAuthEmitted = some true)
    (h2 : accountScopedChannels.contains ch = true) :
    (step s (MuxEvent.addSubscriptionNext ⟨ch, ids⟩)).sent =
      s.sent ++ [subscribeFrame s.socketClientId s.socketMessageCount
        ("/" ++ channelValue ch ++ String.intercalate "," ids)] := by
  have h2m : ch ∈ accountScopedChannels := by simpa using h2
  simp [step, h1, encodeSubscriptionFrames, h2m, sendFrames_sent]

/-- C4 counterexample: in the authenticated session of the scenario trace,
addSubscription on channel orders with ids 5 and 6 produces exactly one
subscribe frame whose path is /orders5,6, which differs from the claimed
path /orders56. -/
theorem claim_C4_counterexample :
    ((runMux traceOrders).sent.filter isSubscribeFrame).map Frame.subscription =
      [some "/orders5,6"] ∧
    (some "/orders5,6" : Option String) ≠ some "/orders56" := by
  refine ⟨by decide, by decide⟩

/-- C4 witness: instantiation of the amended account-scoped encoding at a
concrete authenticated state with channel orders and ids 5 and 6. -/
theorem claim_C4_witness :
    (step sampleAuthedMuxState
        (MuxEvent.addSubscriptionNext ⟨Channels.orders, ["5", "6"]⟩)).sent =
      sampleAuthedMuxState.sent ++ [subscribeFrame (some "C1") 7 "/orders5,6"] := by
  rw [claim_C4_amended sampleAuthedMuxState Channels.orders ["5", "6"] rfl rfl]
  decide

/-- C5: with a quotes subscription for ids 5 and 6 added before
authentication, no subscribe frame has been sent while the connection is
unauthenticated; once the connect-success frame arrives, exactly two
subscribe frames are sent, with subscription paths /quotes/5 and
/quotes/6. -/
theorem claim_C5 :
    (runMux trace5a).isSocketAuth = false ∧
    (runMux trace5a).sent.filter isSubscribeFrame = [] ∧
    ((runMux trace5b).sent.filter isSubscribeFrame).map Frame.subscription =
      [some "/quotes/5", some "/quotes/6"] := by
  refine ⟨by decide, by decide, by decide⟩

/-- C6: a session emission at time T with timeout 30 schedules exactly one
renewal firing at T plus 29 minutes (1740000 ms), neither earlier nor later;
in general every successful session emission yields exactly one firing; and
the authenticate trigger started by a firing uses the credentials currently
stored, that is, the last-set credentials. -/
theorem claim_C6 (T : Nat) (sess : SessionAuth) (s : AuthNet) (c : Credentials)
    (h : s.credentials = some c) :
    renewalFirings 30 [(T, some sess)] = [T + 29 * 60 * 1000] ∧
    (∀ em : List (Nat × Option SessionAuth),
      (renewalFirings 30 em).length =
        (em.filter (fun e => e.2.isSome)).length) ∧
    (authStep s AuthEvent.trigger).lastAttemptCredentials = some c := by
  refine ⟨?_, ?_, ?_⟩
  · simp [renewalFirings, renewalDelayMs]
  · intro em
    simp [renewalFirings]
  · simp [authStep, h]

/-- C6 witness: a session emitted at time 0 with timeout 30 fires the
renewal at exactly 29 minutes, and the trigger uses the stored
credentials. -/
theorem claim_C6_witness :
    renewalFirings 30 [(0, some sessP)] = [0 + 29 * 60 * 1000] ∧
    (authStep idleAuthNet AuthEvent.trigger).lastAttemptCredentials =
      some ⟨"user", "pw", "secret"⟩ :=
  ⟨(claim_C6 0 sessP idleAuthNet ⟨"user", "pw", "secret"⟩ rfl).1,
   (claim_C6 0 sessP idleAuthNet ⟨"user", "pw", "secret"⟩ rfl).2.2⟩

/-- C7 (amended): a second authenticate trigger arriving while a login
sequence is in flight does not join it: the switching combinator cancels the
in-flight sequence and starts a new one, so a new network attempt is issued
(attempts accumulate, one per trigger) and the earlier caller's attempt is
cancelled; only one sequence remains active at a time. -/
theorem claim_C7_amended (s : AuthNet) (c : Credentials)
    (h1 : s.credentials = some c) (h2 : s.inFlight = true) :
    (authStep s AuthEvent.trigger).loginAttemptsStarted =
      s.loginAttemptsStarted + 1 ∧
    (authStep s AuthEvent.trigger).canceledAttempts =
      s.canceledAttempts + 1 ∧
    (authStep s AuthEvent.trigger).inFlight = true := by
  simp [authStep, h1, h2]

/-- C7 counterexample: two triggers with the second arriving before the
first completes start two credential-login requests, and the first chain is
cancelled rather than shared, contradicting the claim that no duplicate
network attempts are issued and that both callers receive the result of a
single in-flight attempt. -/
theorem claim_C7_counterexample :
    (authStep (authStep idleAuthNet AuthEvent.trigger)
        AuthEvent.trigger).loginAttemptsStarted = 2 ∧
    (authStep (authStep idleAuthNet AuthEvent.trigger)
        AuthEvent.trigger).canceledAttempts = 1 := by
  refine ⟨by decide, by decide⟩

/-- C7 witness: instantiation of the amended overlap behaviour at a concrete
in-flight pipeline state. -/
theorem claim_C7_witness :
    (authStep inFlightAuthNet AuthEvent.trigger).loginAttemptsStarted =
      inFlightAuthNet.loginAttemptsStarted + 1 ∧
    (authStep inFlightAuthNet AuthEvent.trigger).canceledAttempts =
      inFlightAuthNet.canceledAttempts + 1 ∧
    (authStep inFlightAuthNet AuthEvent.trigger).inFlight = true :=
  claim_C7_amended inFlightAuthNet ⟨"user", "pw", "secret"⟩ rfl rfl

/-- C8 (amended): credential validation is a pure, synchronous check with
the credential errors taking precedence: it fails with a missing-credentials
error exactly when the username or the password is empty, it fails with the
timeout error exactly when username and password are both non-empty and the
timeout lies outside the closed interval 30 to 1440, and it succeeds exactly
when the credentials are non-empty and the timeout lies inside the
interval. -/
theorem claim_C8_amended (c : Credentials) (t : Int) :
    (isCredentialsFailure (checkCredentials c t) = true ↔
      (c.username = "" ∨ c.password = "")) ∧
    (c.username ≠ "" → c.password ≠ "" →
      (checkCredentials c t = Except.error CredError.timeoutOutOfRange ↔
        ¬(MIN_INACTIVE_MINUTES ≤ t ∧ t ≤ MAX_INACTIVE_MINUTES))) ∧
    (checkCredentials c t = Except.ok () ↔
      (c.username ≠ "" ∧ c.password ≠ "" ∧ MIN_INACTIVE_MINUTES ≤ t ∧
        t ≤ MAX_INACTIVE_MINUTES)) := by
  by_cases hu : c.username = "" <;> by_cases hp : c.password = "" <;>
    by_cases ht : MIN_INACTIVE_MINUTES ≤ t ∧ t ≤ MAX_INACTIVE_MINUTES <;>
    simp [checkCredentials, isCredentialsFailure, hu, hp, ht]

/-- C8 counterexample: for empty username and timeout 0 the timeout lies
outside the range, yet validation fails with the missing-username error and
not with the timeout error, so the claimed biconditional that it fails with
the timeout error exactly when the timeout is out of range is false. -/
theorem claim_C8_counterexample :
    checkCredentials ⟨"", "p", "s"⟩ 0 = Except.error CredError.missingUsername ∧
    ¬(MIN_INACTIVE_MINUTES ≤ (0 : Int) ∧ (0 : Int) ≤ MAX_INACTIVE_MINUTES) ∧
    checkCredentials ⟨"", "p", "s"⟩ 0 ≠
      Except.error CredError.timeoutOutOfRange := by
  refine ⟨rfl, by decide, ?_⟩
  intro h
  simp [checkCredentials] at h

/-- C8 witness: non-empty credentials with timeout 100 validate
successfully. -/
theorem claim_C8_witness :
    checkCredentials ⟨"u", "p", "s"⟩ 100 = Except.ok () :=
  (claim_C8_amended ⟨"u", "p", "s"⟩ 100).2.2.mpr (by decide)

/-- C9: the retry strategy propagates a failure immediately when its status
code is in the exclusion list or when the attempt number exceeds the
maximum, and otherwise waits attempt number times the base delay; 401 is in
the exclusion list of both authenticate configurations, so a 401 from the
second factor propagates on the very first failure with no retry; and a run
with two retryable failures waits one times then two times the base delay
before attempts two and three and is not propagated. -/
theorem claim_C9 (cfg : RetryConfig) (code : Int) (i : Nat)
    (hex : cfg.excludedStatusCodes.contains code = false)
    (hle : i + 1 ≤ cfg.maxRetryAttempts) :
    (∀ (cfg2 : RetryConfig) (c2 : Int) (j : Nat),
      cfg2.excludedStatusCodes.contains c2 = true →
      genericRetryStrategy cfg2 (some c2) j = RetryDecision.propagate) ∧
    (∀ (cfg2 : RetryConfig) (sc : Option Int) (j : Nat),
      cfg2.maxRetryAttempts < j + 1 →
      genericRetryStrategy cfg2 sc j = RetryDecision.propagate) ∧
    genericRetryStrategy cfg (some code) i =
      RetryDecision.retryAfter ((i + 1) * cfg.scalingDuration) ∧
    authRetryConfigMonolith.excludedStatusCodes.contains 401 = true ∧
    authRetryConfigService.excludedStatusCodes.contains 401 = true ∧
    genericRetryStrategy authRetryConfigMonolith (some 401) 0 =
      RetryDecision.propagate ∧
    retryRun authRetryConfigMonolith [some 500, some 500] 0 =
      ([1 * 10000, 2 * 10000], false) := by
  refine ⟨?_, ?_, ?_, by decide, by decide, by decide, by decide⟩
  · intro cfg2 c2 j h
    have hm : c2 ∈ cfg2.excludedStatusCodes := by simpa using h
    simp [genericRetryStrategy, isExcludedErrorCode, hm]
  · intro cfg2 sc j h
    simp [genericRetryStrategy, h]
  · have hni : ¬(cfg.maxRetryAttempts < i + 1 ∨
        isExcludedErrorCode cfg (some code) = true) := by
      have hexm : code ∉ cfg.excludedStatusCodes := by simpa using hex
      rintro (hlt | hco)
      · omega
      · simp [isExcludedErrorCode] at hco
        exact hexm hco
    unfold genericRetryStrategy
    rw [if_neg hni]

/-- C9 witness: with the monolithic default configuration, a retryable
status 500 on the first failure leads to a wait of one base delay. -/
theorem claim_C9_witness :
    genericRetryStrategy defaultRetryConfigMonolith (some 500) 0 =
      RetryDecision.retryAfter ((0 + 1) * defaultRetryConfigMonolith.scalingDuration) :=
  (claim_C9 defaultRetryConfigMonolith 500 0 (by decide) (by decide)).2.2.1

/-- C10: the request helper builds its json by writing the transport status
into a statusCode entry first and spreading the body after it, so a body
that carries its own statusCode entry overrides the transport status, a body
without one leaves the transport status visible, and the non-200 rejection
check of both login steps is decided by the body value whenever the body
carries one. -/
theorem claim_C10 (httpStatus : Int) (body : List (String × Int)) (bs : Int) :
    (objGet body "statusCode" = some bs →
      objGet (requestJson httpStatus body) "statusCode" = some bs) ∧
    (objGet body "statusCode" = none →
      objGet (requestJson httpStatus body) "statusCode" = some httpStatus) ∧
    (objGet body "statusCode" = some bs →
      (authResponseRejected (requestJson httpStatus body) = true ↔ bs ≠ 200)) := by
  refine ⟨?_, ?_, ?_⟩
  · intro h
    simp [requestJson, objGet, h]
  · intro h
    simp [requestJson, objGet, h]
  · intro h
    have hm : objGet (requestJson httpStatus body) "statusCode" = some bs := by
      simp [requestJson, objGet, h]
    by_cases hb : bs = 200
    · simp [authResponseRejected, hm, hb]
    · simp [authResponseRejected, hm, hb]

/-- C10 witness: a transport status 500 combined with a body statusCode 200
yields a merged statusCode of 200, so the success checks see the body
value. -/
theorem claim_C10_witness :
    objGet (requestJson 500 [("statusCode", 200)]) "statusCode" = some 200 :=
  (claim_C10 500 [("statusCode", 200)] 200).1 (by decide)
